import Mathlib

/-!
Verification of the AetherScan backend (prashplus/AetherScan) against its
natural-language specification.

The definitions below are a shallow embedding of the Python sources:

* `src/backend/main.py` — FastAPI app: the `/status` probe, the
  `/ws/reconstruct` websocket session loop (`websocket_reconstruct`,
  `run_reconstruction`, `send_demo_points`) and the `/export/ply` endpoint.
* `src/backend/services/reconstruction.py` — `ReconstructionService`
  (`__init__`, `process_images` and its Fast3R / heuristic branches).
* `src/backend/utils/ply_exporter.py` — `export_to_ply`,
  `export_to_ply_binary`.

Effects are made explicit: outbound websocket traffic is a `List Msg`,
session-local mutable state is threaded through each handler, the
non-deterministic pieces (the Fast3R inference outcome, the heuristic point
generator, the demo random stream, base64 decoding) are oracle parameters,
and Python exceptions become `Except` values.
-/

namespace AetherScan

/-! ## Point data

`ReconstructionService` produces points as dicts
`{x,y,z : float, r,g,b : int}` (reconstruction.py lines 144-148, 183-186);
`main.py` only forwards them, so their payload is kept as a plain record. -/

/-- A reconstruction point as produced by the service: three float
coordinates and three integer color channels. -/
structure RPoint where
  x : Float
  y : Float
  z : Float
  r : Int
  g : Int
  b : Int

/-! ## Outbound websocket messages

The JSON objects sent by `websocket_reconstruct`, `run_reconstruction` and
`send_demo_points` in main.py, by their `type` discriminator. -/

/-- An outbound websocket message of the session protocol (main.py). -/
inductive Msg where
  | pong
  | imageReceived (status filename : String)
  | errorMsg (message : String)
  | points (data : List RPoint)
  | reconstructionComplete (totalPoints : Nat)

/-- The `type` tag of a message together with its size datum: for a
`points` message the number of points it carries, for
`reconstruction_complete` the declared total, otherwise 0. -/
def Msg.shape : Msg → String × Nat
  | .pong => ("pong", 0)
  | .imageReceived _ _ => ("image_received", 0)
  | .errorMsg _ => ("error", 0)
  | .points l => ("points", l.length)
  | .reconstructionComplete n => ("reconstruction_complete", n)

/-- Number of `error` messages in an outbound trace. -/
def countErrorMsgs (msgs : List Msg) : Nat :=
  (msgs.filter fun m => match m with | .errorMsg _ => true | _ => false).length

/-- Number of `points` chunk messages in an outbound trace. -/
def countPointsMsgs (msgs : List Msg) : Nat :=
  (msgs.filter fun m => match m with | .points _ => true | _ => false).length

/-- Concatenation, in emission order, of the payloads of all `points`
messages in an outbound trace. -/
def streamedPoints : List Msg → List RPoint
  | [] => []
  | .points l :: rest => l ++ streamedPoints rest
  | _ :: rest => streamedPoints rest

/-- The lengths of the `points` chunks of a trace, in emission order. -/
def pointsChunkSizes (msgs : List Msg) : List Nat :=
  (msgs.filterMap fun m => match m with | .points l => some l.length | _ => none)

/-- The texts of the `error` messages of a trace, in emission order. -/
def errorTexts (msgs : List Msg) : List String :=
  (msgs.filterMap fun m => match m with | .errorMsg t => some t | _ => none)

/-- The `status` fields of the `image_received` acknowledgments of a
trace, in emission order. -/
def ackStatuses (msgs : List Msg) : List String :=
  (msgs.filterMap fun m =>
    match m with | .imageReceived stt _ => some stt | _ => none)

/-! ## Python slice-loop chunking

`run_reconstruction` (main.py lines 261-268) streams
`points[i:i+chunk_size]` for `i in range(0, len(points), chunk_size)`.
`sliceStarts` is the value of `range(0, len, step)` and `pyChunks` the
resulting list of slices; `chunksRec` is a recursive reformulation used
for the proofs, shown equal to `pyChunks` in `pyChunks_eq_chunksRec`. -/

/-- `range(0, len, step)` in Python for `step > 0`: the multiples of
`step` below `len`. -/
def sliceStarts (len step : Nat) : List Nat :=
  (List.range ((len + step - 1) / step)).map (· * step)

/-- The chunks `points[i:i+step]` for `i in range(0, len(points), step)`
(main.py lines 262-264). -/
def pyChunks (step : Nat) (l : List α) : List (List α) :=
  (sliceStarts l.length step).map fun i => (l.drop i).take step

/-- Recursive reformulation of `pyChunks`: repeatedly split off the first
`step` elements until the list is exhausted. -/
def chunksRec : Nat → List α → List (List α)
  | _, [] => []
  | 0, _ :: _ => []
  | s + 1, x :: xs =>
      (x :: xs).take (s + 1) :: chunksRec (s + 1) ((x :: xs).drop (s + 1))
  termination_by _ l => l.length
  decreasing_by simp; omega

/-- `chunk_size = 100` (main.py line 262). -/
def chunk_size : Nat := 100

/-! ## ReconstructionService (services/reconstruction.py)

`__init__` (lines 30-48) stores `device`, `min_images = 2`,
`max_images = 20`, `model = None`, `lit_module = None`,
`model_loaded = False` and `fast3r_available` (True iff `import fast3r`
succeeded). Those assignments are the complete set of attributes the
object carries — in particular there is no `ready` attribute and no
`initialize` method, although `main.py` reads both. -/

/-- `MIN_IMAGES_REQUIRED = 2` (reconstruction.py line 18). -/
def MIN_IMAGES_REQUIRED : Nat := 2

/-- `MAX_IMAGES_RECOMMENDED = 20` (reconstruction.py line 19). -/
def MAX_IMAGES_RECOMMENDED : Nat := 20

/-- The mutable attributes of a `ReconstructionService` object, exactly as
assigned in `__init__` (reconstruction.py lines 30-48). `model` and
`lit_module` start as `None` and are only given objects by `_load_model`;
for the claims at hand only their presence matters, recorded by
`model_loaded`. -/
structure ReconstructionServiceState where
  device : String
  model_loaded : Bool
  fast3r_available : Bool

/-- A Python attribute value, as far as the handlers under verification
inspect one. -/
inductive PyVal where
  | vStr (s : String)
  | vInt (n : Int)
  | vBool (b : Bool)
  | vNone

/-- Python attribute lookup on a `ReconstructionService` object: the
attributes assigned in `__init__` (reconstruction.py lines 30-48) and
nothing else; any other name raises `AttributeError`, modelled as `none`.
Note that `"ready"` is not among them. -/
def ReconstructionServiceState.getattr (st : ReconstructionServiceState) :
    String → Option PyVal
  | "device" => some (.vStr st.device)
  | "min_images" => some (.vInt (MIN_IMAGES_REQUIRED : Int))
  | "max_images" => some (.vInt (MAX_IMAGES_RECOMMENDED : Int))
  | "model" => some .vNone
  | "lit_module" => some .vNone
  | "model_loaded" => some (.vBool st.model_loaded)
  | "fast3r_available" => some (.vBool st.fast3r_available)
  | _ => none

/-- Python truthiness of the attribute values above. -/
def PyVal.truthy : PyVal → Bool
  | .vStr s => !s.isEmpty
  | .vInt n => n != 0
  | .vBool b => b
  | .vNone => false

/-- The typed failure of `process_images`: the only `raise` it can
propagate is the `ValueError` for fewer than `min_images` image paths
(reconstruction.py lines 79-80). There is no not-ready variant: the
service defines no readiness check at all. -/
inductive RecError where
  | insufficientInput (provided minimum : Nat)

/-- `str(e)` for the error above, from the f-string at
reconstruction.py line 80. -/
def RecError.message : RecError → String
  | .insufficientInput n m =>
      "Insufficient images: " ++ toString n ++ " provided, minimum " ++
        toString m ++ " required"

/-- Oracles for one `process_images` call: the outcome of the Fast3R
branch `_process_with_fast3r` (lines 94-150 — model load plus inference,
which either returns a point list or raises, the exception text being the
`.error` payload), and the point list produced by the heuristic fallback
`_generate_points_from_images` (lines 157-189, which swallows all
per-image exceptions via `except: pass` and therefore always returns a
list, possibly empty). -/
structure RecEnv where
  fast3rResult : Except String (List RPoint)
  heuristicPoints : List RPoint

/-- `ReconstructionService.process_images` (reconstruction.py lines
76-92): raise `ValueError` when fewer than `min_images` paths are given;
otherwise, if `fast3r_available`, try Fast3R and on *any* exception fall
through to the heuristic generator; if Fast3R is unavailable, use the
heuristic generator directly. The attribute mutations performed inside
`_load_model` are irrelevant to the returned value and are absorbed into
the `RecEnv` oracle. -/
def process_images (env : RecEnv) (st : ReconstructionServiceState)
    (image_paths : List String) : Except RecError (List RPoint) :=
  if image_paths.length < MIN_IMAGES_REQUIRED then
    .error (.insufficientInput image_paths.length MIN_IMAGES_REQUIRED)
  else if st.fast3r_available then
    match env.fast3rResult with
    | .ok pts => .ok pts
    | .error _ => .ok env.heuristicPoints
  else
    .ok env.heuristicPoints

/-! ## run_reconstruction and send_demo_points (main.py) -/

/-- `run_reconstruction` (main.py lines 247-287): call
`service.process_images`; on success stream the points in slices of
`chunk_size` and then a `reconstruction_complete` carrying `len(points)`;
on an exception send exactly one `error` message with
`f"Reconstruction failed: {str(e)}"` and nothing else. The value is the
ordered outbound message trace of the call. -/
def run_reconstruction (env : RecEnv) (st : ReconstructionServiceState)
    (image_paths : List String) : List Msg :=
  match process_images env st image_paths with
  | .ok points =>
      (pyChunks chunk_size points).map Msg.points ++
        [Msg.reconstructionComplete points.length]
  | .error e => [Msg.errorMsg ("Reconstruction failed: " ++ e.message)]

/-- `send_demo_points` (main.py lines 290-322): 100 iterations, each
drawing 10 fresh random points and sending them as one `points` message,
then one `reconstruction_complete` with the hard-coded total `1000`. The
random draws are modelled by the stream `rand`, consumed in order. -/
def send_demo_points (rand : Nat → RPoint) : List Msg :=
  ((List.range 100).map fun i =>
      Msg.points ((List.range 10).map fun j => rand (i * 10 + j))) ++
    [Msg.reconstructionComplete 1000]

/-! ## The websocket session loop (main.py lines 141-244)

`websocket_reconstruct` keeps two per-connection variables,
`session_images` (initially `[]`) and `temp_dir` (initially `None`), and
dispatches on the inbound message's `type`. The filesystem fact the
handlers consult — `os.path.exists(temp_dir)` — is carried alongside. -/

/-- Per-connection mutable state of `websocket_reconstruct`:
`session_images` and `temp_dir` (main.py lines 150-152), plus whether the
directory `temp_dir` names currently exists on disk (`False` when
`temp_dir` is `None`). -/
structure WsState where
  session_images : List String
  temp_dir : Option String
  temp_dir_exists : Bool

/-- The state of a freshly accepted connection (main.py lines 150-152). -/
def initialWsState : WsState :=
  { session_images := [], temp_dir := none, temp_dir_exists := false }

/-- Oracles for the session handlers: the demo random stream, the
reconstruction oracles, the name `tempfile.mkdtemp` would return, whether
base64-decoding the current `image_data` payload succeeds, and the
`str(e)` text of the exception when saving fails. -/
structure SessionEnv where
  rand : Nat → RPoint
  recEnv : RecEnv
  new_temp_dir : String
  decode_ok : Bool
  err_text : String

/-- Inbound websocket messages, by `type` (main.py lines 160-227); a
message with any other `type` matches no branch and is ignored. The
`image_data` payload bytes are abstracted (only `decode_ok` of the
environment looks at them); `filename` is `None` when the field is
absent. -/
inductive InMsg where
  | ping
  | uploadComplete (count : Nat)
  | imageData (filenameField : Option String)
  | unknown

/-- The `image_data` branch (main.py lines 185-227): compute the filename
default `f"image_{len(session_images)}.jpg"`, then inside `try`: create
`temp_dir` via `mkdtemp` if it is `None`, base64-decode, and write the
file — the write fails if the directory no longer exists. On success
append `os.path.realpath(temp_path)` (modelled as the joined path) to
`session_images` and acknowledge with status `"saved"`; on any exception
send a single `error` message `f"Failed to save image: {str(e)}"`. -/
def handle_image_data (env : SessionEnv) (filenameField : Option String)
    (s : WsState) : WsState × List Msg :=
  let filename := filenameField.getD
    ("image_" ++ toString s.session_images.length ++ ".jpg")
  let s1 :=
    if s.temp_dir.isNone then
      { s with temp_dir := some env.new_temp_dir, temp_dir_exists := true }
    else s
  if env.decode_ok && s1.temp_dir_exists then
    let temp_path := s1.temp_dir.getD "" ++ "/" ++ filename
    ({ s1 with session_images := s1.session_images ++ [temp_path] },
      [Msg.imageReceived "saved" filename])
  else
    (s1, [Msg.errorMsg ("Failed to save image: " ++ env.err_text)])

/-- The `upload_complete` branch (main.py lines 166-183): if
`len(session_images) == 0` run the demo path, otherwise run the real
reconstruction on `session_images`; afterwards, if `temp_dir` is truthy
and the directory exists, `shutil.rmtree` it. Note that neither
`session_images` nor `temp_dir` itself is reset. -/
def handle_upload_complete (env : SessionEnv)
    (st : ReconstructionServiceState) (s : WsState) : WsState × List Msg :=
  ((if s.temp_dir.isSome && s.temp_dir_exists then
      { s with temp_dir_exists := false }
    else s),
   (if s.session_images.length == 0 then send_demo_points env.rand
    else run_reconstruction env.recEnv st s.session_images))

/-- One iteration of the receive loop of `websocket_reconstruct`
(main.py lines 155-227), dispatching on the inbound message type. -/
def handle_message (env : SessionEnv) (st : ReconstructionServiceState)
    (s : WsState) : InMsg → WsState × List Msg
  | .ping => (s, [Msg.pong])
  | .uploadComplete _ => handle_upload_complete env st s
  | .imageData f => handle_image_data env f s
  | .unknown => (s, [])

/-! ## The /status readiness probe (main.py lines 122-138) -/

/-- What a request to `/status` can produce: a JSON response with an HTTP
status code and the `ready` flag, or an uncaught `AttributeError` (which
the framework surfaces as an internal server error, not as either JSON
response). -/
inductive StatusResp where
  | jsonResp (statusCode : Nat) (ready : Bool) (message : String)
  | attrError (name : String)

/-- The `/status` handler (main.py lines 122-138): evaluate
`service.ready` and branch on its truthiness. The attribute access is the
Python `getattr`; since `ReconstructionService.__init__` never assigns a
`ready` attribute, the access raises `AttributeError`. -/
def statusHandler (st : ReconstructionServiceState) : StatusResp :=
  match st.getattr "ready" with
  | some v =>
      if v.truthy then .jsonResp 200 true "Model loaded and ready"
      else .jsonResp 503 false "Model is still loading — please wait"
  | none => .attrError "ready"

/-! ## PLY exporter (utils/ply_exporter.py)

The exporter receives client-supplied dicts. A coordinate field holds a
Python number (the JSON layer yields `int` for `1` and `float` for
`1.5`), read with `point.get('x', 0.0)` and printed with an f-string —
`str` of an `int` is its decimal form, `str` of a `float` is Python's
float repr, modelled by the `floatRepr` parameter. A color field is read
with `point.get('r', 128)` and passed through `int(...)`; the field below
stores the resulting integer. -/

/-- A Python number as it reaches the exporter: an `int` or a `float`. -/
inductive PyNum where
  | int (n : Int)
  | float (f : Float)

/-- Python `str()` of a number: decimal form for `int`, the
(parameterized) float repr for `float`. -/
def PyNum.format (floatRepr : Float → String) : PyNum → String
  | .int n => toString n
  | .float f => floatRepr f

/-- Python `float()` of a number, for `struct.pack`. -/
def PyNum.toPyFloat : PyNum → Float
  | .int n => Float.ofInt n
  | .float f => f

/-- A client-supplied point dict as consumed by the exporter: each of the
six keys may be absent (`none`). -/
structure PointDict where
  xField : Option PyNum := none
  yField : Option PyNum := none
  zField : Option PyNum := none
  rField : Option Int := none
  gField : Option Int := none
  bField : Option Int := none

/-- `max(0, min(255, c))` — the clamp applied to each color channel
(ply_exporter.py lines 48-51 and 106-109). -/
def clampByte (c : Int) : Int := max 0 (min 255 c)

/-- The coordinate values `point.get('x', 0.0)` etc. (lines 41-43). -/
def PointDict.xVal (p : PointDict) : PyNum := p.xField.getD (.float 0.0)

/-- See `PointDict.xVal`. -/
def PointDict.yVal (p : PointDict) : PyNum := p.yField.getD (.float 0.0)

/-- See `PointDict.xVal`. -/
def PointDict.zVal (p : PointDict) : PyNum := p.zField.getD (.float 0.0)

/-- The clamped color channels `max(0, min(255, int(point.get('r', 128))))`
etc. (lines 44-51). -/
def PointDict.rClamped (p : PointDict) : Int := clampByte (p.rField.getD 128)

/-- See `PointDict.rClamped`. -/
def PointDict.gClamped (p : PointDict) : Int := clampByte (p.gField.getD 128)

/-- See `PointDict.rClamped`. -/
def PointDict.bClamped (p : PointDict) : Int := clampByte (p.bField.getD 128)

/-- One ASCII body line, `f"{x} {y} {z} {r} {g} {b}"` with the values
read and clamped as in ply_exporter.py lines 40-53. -/
def vertexLine (floatRepr : Float → String) (p : PointDict) : String :=
  p.xVal.format floatRepr ++ " " ++ p.yVal.format floatRepr ++ " " ++
    p.zVal.format floatRepr ++ " " ++ toString p.rClamped ++ " " ++
    toString p.gClamped ++ " " ++ toString p.bClamped

/-- The ASCII header f-string (ply_exporter.py lines 25-36), a function
of the vertex count alone. -/
def asciiHeader (n : Nat) : String :=
  "ply\nformat ascii 1.0\ncomment AetherScan Point Cloud Export\nelement vertex "
    ++ toString n ++
    "\nproperty float x\nproperty float y\nproperty float z\nproperty uchar red\nproperty uchar green\nproperty uchar blue\nend_header\n"

/-- The single failure of both exporters: `raise ValueError("No points
provided for export")` on an empty input (lines 21-22 and 76-77). -/
inductive ExportErr where
  | emptyInput

/-- `str(e)` of the exporter failure. -/
def ExportErr.message : ExportErr → String
  | .emptyInput => "No points provided for export"

/-- `export_to_ply` (ply_exporter.py lines 10-62): fail on an empty
input; otherwise build `header + "\n".join(vertices)` and, when a
filename was given, write the content there. The result carries the
returned string together with the list of file writes performed (empty
when no filename was given; in particular the error case performs none). -/
def export_to_ply (floatRepr : Float → String) (points : List PointDict)
    (filename : Option String) :
    Except ExportErr (String × List (String × String)) :=
  if points.isEmpty then .error .emptyInput
  else
    let ply_content := asciiHeader points.length ++
      String.intercalate "\n" (points.map (vertexLine floatRepr))
    .ok (ply_content, match filename with
      | some f => [(f, ply_content)]
      | none => [])

/-- The binary header f-string (ply_exporter.py lines 80-91); its
`.encode('ascii')` is the code-point sequence since every character is
ASCII. -/
def binHeader (n : Nat) : String :=
  "ply\nformat binary_little_endian 1.0\ncomment AetherScan Point Cloud Export\nelement vertex "
    ++ toString n ++
    "\nproperty float x\nproperty float y\nproperty float z\nproperty uchar red\nproperty uchar green\nproperty uchar blue\nend_header\n"

/-- The fixed part of `binHeader` before the vertex count. -/
def binHeaderFront : String :=
  "ply\nformat binary_little_endian 1.0\ncomment AetherScan Point Cloud Export\nelement vertex "

/-- The fixed part of `binHeader` after the vertex count. -/
def binHeaderBack : String :=
  "\nproperty float x\nproperty float y\nproperty float z\nproperty uchar red\nproperty uchar green\nproperty uchar blue\nend_header\n"

/-- `header.encode('ascii')` as a byte list. -/
def binHeaderBytes (n : Nat) : List Nat :=
  (binHeader n).data.map Char.toNat

/-- One `struct.pack('<fffBBB', x, y, z, r, g, b)` record
(ply_exporter.py line 112): the three 4-byte little-endian IEEE-754
float32 encodings — produced by the parameter `packf32`, since the bit
encoding is the `struct` library's — followed by the three clamped color
bytes. -/
def packRecord (packf32 : Float → List Nat) (p : PointDict) : List Nat :=
  packf32 p.xVal.toPyFloat ++ packf32 p.yVal.toPyFloat ++
    packf32 p.zVal.toPyFloat ++
    [p.rClamped.toNat, p.gClamped.toNat, p.bClamped.toNat]

/-- `export_to_ply_binary` (ply_exporter.py lines 65-120): fail on an
empty input; otherwise accumulate one packed record per point onto a
growing byte buffer, prepend the encoded header, and write the result to
`filename`. Returns the bytes together with the file write performed. -/
def export_to_ply_binary (packf32 : Float → List Nat)
    (points : List PointDict) (filename : String) :
    Except ExportErr (List Nat × List (String × List Nat)) :=
  if points.isEmpty then .error .emptyInput
  else
    let vertex_data :=
      points.foldl (fun acc p => acc ++ packRecord packf32 p) []
    let ply_content := binHeaderBytes points.length ++ vertex_data
    .ok (ply_content, [(filename, ply_content)])

/-- The response of the `/export/ply` endpoint. -/
inductive PlyResponse where
  | okAttachment (ply : String)
  | failure (statusCode : Nat) (error : String)

/-- The `/export/ply` endpoint (main.py lines 325-345): call
`export_to_ply(points)` with no filename; on success, a 200 JSON response
carrying the content as an attachment; on an exception, a 500 response
with `{"error": str(e)}`. -/
def export_ply (floatRepr : Float → String) (points : List PointDict) :
    PlyResponse :=
  match export_to_ply floatRepr points none with
  | .ok (ply_content, _) => .okAttachment ply_content
  | .error e => .failure 500 e.message

/-! ## Concrete fixtures used by the counterexamples and witnesses -/

/-- A concrete reconstruction point. -/
def fallbackPt : RPoint := ⟨0.0, 0.0, 0.0, 128, 128, 128⟩

/-- A service state as built by `__init__` on a machine where
`import fast3r` succeeded but the model is not yet loaded. -/
def stFast3r : ReconstructionServiceState :=
  { device := "cuda", model_loaded := false, fast3r_available := true }

/-- A service state as built by `__init__` on a machine without the
`fast3r` package. -/
def stNoFast3r : ReconstructionServiceState :=
  { device := "cpu", model_loaded := false, fast3r_available := false }

/-- Oracles for a run in which the Fast3R invocation fails and the
heuristic fallback would produce a single point. -/
def envFast3rFails : RecEnv :=
  { fast3rResult := .error "CUDA error: out of memory",
    heuristicPoints := [fallbackPt] }

/-- A 250-point reconstruction result. -/
def pts250 : List RPoint := List.replicate 250 fallbackPt

/-- Oracles for a run in which Fast3R succeeds with 250 points. -/
def env250 : RecEnv := { fast3rResult := .ok pts250, heuristicPoints := [] }

/-- A 1000-point reconstruction result. -/
def pts1000 : List RPoint := List.replicate 1000 fallbackPt

/-- Oracles for a run in which Fast3R succeeds with 1000 points. -/
def env1000 : RecEnv := { fast3rResult := .ok pts1000, heuristicPoints := [] }

/-- A concrete demo random stream. -/
def randConst : Nat → RPoint := fun _ => fallbackPt

/-- Session oracles for a connection on which every save succeeds. -/
def sessionEnvOk : SessionEnv :=
  { rand := randConst, recEnv := env250,
    new_temp_dir := "/tmp/aetherscan_x1", decode_ok := true,
    err_text := "FileNotFoundError" }

/-- The spec example point `{x:1, y:2, z:3, r:300, g:-5, b:10}`. -/
def examplePoint : PointDict :=
  { xField := some (.int 1), yField := some (.int 2),
    zField := some (.int 3), rField := some 300, gField := some (-5),
    bField := some 10 }

/-- A well-formed example point used by witnesses. -/
def plainPoint : PointDict :=
  { xField := some (.int 0), yField := some (.int 0),
    zField := some (.int 0), rField := some 7, gField := some 8,
    bField := some 9 }

/-- A stand-in float32 packer for witnesses: every float encodes to four
zero bytes (any packer of four-byte records satisfies the theorems). -/
def constPack : Float → List Nat := fun _ => [0, 0, 0, 0]

/-- A stand-in float formatter for witnesses. -/
def constFloatStr : Float → String := fun _ => "0.0"

/-- The session state after the first `upload_complete` cycle of the C2
scenario: two images were saved and `upload_complete` handled. -/
def stateAfterCycle : WsState :=
  (handle_upload_complete sessionEnvOk stNoFast3r
    (handle_image_data sessionEnvOk (some "b.jpg")
      (handle_image_data sessionEnvOk (some "a.jpg") initialWsState).1).1).1

/-! ## Chunking lemmas -/

theorem sliceStarts_len_zero (step : Nat) : sliceStarts 0 step = [] := by
  unfold sliceStarts
  cases step with
  | zero => simp
  | succ s =>
      rw [Nat.div_eq_of_lt (by omega)]
      simp

theorem ceil_div_succ (n s : Nat) (hn : 0 < n) (hs : 0 < s) :
    (n + s - 1) / s = ((n - s) + s - 1) / s + 1 := by
  have h1 : n + s - 1 = (n - 1) + s := by omega
  rw [h1, Nat.add_div_right _ hs]
  rcases le_or_lt n s with h | h
  · have h2 : n - s = 0 := by omega
    have h3 : (n - 1) / s = 0 := Nat.div_eq_of_lt (by omega)
    have h4 : (0 + s - 1) / s = 0 := Nat.div_eq_of_lt (by omega)
    rw [h2, h3, h4]
  · have h2 : n - s + s - 1 = (n - s - 1) + s := by omega
    have h3 : n - 1 = (n - s - 1) + s := by omega
    rw [h2, h3, Nat.add_div_right _ hs]

theorem pyChunks_cons (s : Nat) (x : α) (xs : List α) :
    pyChunks (s + 1) (x :: xs) =
      (x :: xs).take (s + 1) :: pyChunks (s + 1) ((x :: xs).drop (s + 1)) := by
  unfold pyChunks sliceStarts
  have hlen : (x :: xs).length = xs.length + 1 := rfl
  rw [hlen, ceil_div_succ (xs.length + 1) (s + 1) (by omega) (by omega),
    List.range_succ_eq_map]
  have hdlen : ((x :: xs).drop (s + 1)).length = xs.length + 1 - (s + 1) := by
    simp
  rw [hdlen]
  simp only [List.map_cons, List.map_map, Nat.zero_mul, List.drop_zero]
  congr 1
  apply List.map_congr_left
  intro i _
  simp only [Function.comp_apply]
  rw [List.drop_drop, Nat.succ_mul, Nat.add_comm (s + 1) (i * (s + 1))]

theorem chunksRec_cons (s : Nat) (x : α) (xs : List α) :
    chunksRec (s + 1) (x :: xs) =
      (x :: xs).take (s + 1) :: chunksRec (s + 1) ((x :: xs).drop (s + 1)) := by
  rw [chunksRec]

theorem pyChunks_eq_chunksRec (s : Nat) (l : List α) :
    pyChunks (s + 1) l = chunksRec (s + 1) l := by
  suffices H : ∀ n (l : List α), l.length ≤ n →
      pyChunks (s + 1) l = chunksRec (s + 1) l from H l.length l le_rfl
  intro n
  induction n with
  | zero =>
      intro l hl
      have : l = [] := List.length_eq_zero.mp (Nat.le_zero.mp hl)
      subst this
      simp [pyChunks, sliceStarts_len_zero, chunksRec]
  | succ n ih =>
      intro l hl
      cases l with
      | nil => simp [pyChunks, sliceStarts_len_zero, chunksRec]
      | cons x xs =>
          rw [pyChunks_cons, chunksRec_cons]
          congr 1
          apply ih
          simp only [List.length_drop, List.length_cons]
          simp only [List.length_cons] at hl
          omega

theorem chunksRec_flatten (s : Nat) (l : List α) :
    (chunksRec (s + 1) l).flatten = l := by
  suffices H : ∀ n (l : List α), l.length ≤ n →
      (chunksRec (s + 1) l).flatten = l from H l.length l le_rfl
  intro n
  induction n with
  | zero =>
      intro l hl
      have : l = [] := List.length_eq_zero.mp (Nat.le_zero.mp hl)
      subst this
      simp [chunksRec]
  | succ n ih =>
      intro l hl
      cases l with
      | nil => simp [chunksRec]
      | cons x xs =>
          rw [chunksRec_cons]
          have hrec := ih ((x :: xs).drop (s + 1)) (by
            simp only [List.length_drop, List.length_cons]
            simp only [List.length_cons] at hl
            omega)
          rw [List.flatten_cons, hrec, List.take_append_drop]

theorem chunksRec_eq_nil_iff (s : Nat) (l : List α) :
    chunksRec (s + 1) l = [] ↔ l = [] := by
  cases l with
  | nil => simp [chunksRec]
  | cons x xs => rw [chunksRec_cons]; simp

theorem length_le_of_mem_chunksRec (s : Nat) (l : List α) (c : List α)
    (hc : c ∈ chunksRec (s + 1) l) : c.length ≤ s + 1 := by
  suffices H : ∀ n (l : List α), l.length ≤ n →
      ∀ c ∈ chunksRec (s + 1) l, c.length ≤ s + 1 from
    H l.length l le_rfl c hc
  intro n
  induction n with
  | zero =>
      intro l hl c hcm
      have : l = [] := List.length_eq_zero.mp (Nat.le_zero.mp hl)
      subst this
      simp [chunksRec] at hcm
  | succ n ih =>
      intro l hl c hcm
      cases l with
      | nil => simp [chunksRec] at hcm
      | cons x xs =>
          rw [chunksRec_cons] at hcm
          rcases List.mem_cons.mp hcm with hcm | hcm
          · subst hcm; simp
          · refine ih ((x :: xs).drop (s + 1)) ?_ c hcm
            simp only [List.length_drop, List.length_cons]
            simp only [List.length_cons] at hl
            omega

theorem ne_nil_of_mem_chunksRec (s : Nat) (l : List α) (c : List α)
    (hc : c ∈ chunksRec (s + 1) l) : c ≠ [] := by
  suffices H : ∀ n (l : List α), l.length ≤ n →
      ∀ c ∈ chunksRec (s + 1) l, c ≠ [] from H l.length l le_rfl c hc
  intro n
  induction n with
  | zero =>
      intro l hl c hcm
      have : l = [] := List.length_eq_zero.mp (Nat.le_zero.mp hl)
      subst this
      simp [chunksRec] at hcm
  | succ n ih =>
      intro l hl c hcm
      cases l with
      | nil => simp [chunksRec] at hcm
      | cons x xs =>
          rw [chunksRec_cons] at hcm
          rcases List.mem_cons.mp hcm with hcm | hcm
          · subst hcm; simp
          · refine ih ((x :: xs).drop (s + 1)) ?_ c hcm
            simp only [List.length_drop, List.length_cons]
            simp only [List.length_cons] at hl
            omega

theorem mem_dropLast_chunksRec (s : Nat) (l : List α) (c : List α)
    (hc : c ∈ (chunksRec (s + 1) l).dropLast) : c.length = s + 1 := by
  suffices H : ∀ n (l : List α), l.length ≤ n →
      ∀ c ∈ (chunksRec (s + 1) l).dropLast, c.length = s + 1 from
    H l.length l le_rfl c hc
  intro n
  induction n with
  | zero =>
      intro l hl c hcm
      have : l = [] := List.length_eq_zero.mp (Nat.le_zero.mp hl)
      subst this
      simp [chunksRec] at hcm
  | succ n ih =>
      intro l hl c hcm
      cases l with
      | nil => simp [chunksRec] at hcm
      | cons x xs =>
          rw [chunksRec_cons] at hcm
          cases hrest : chunksRec (s + 1) ((x :: xs).drop (s + 1)) with
          | nil => rw [hrest] at hcm; simp at hcm
          | cons r rs =>
              rw [hrest, List.dropLast_cons₂] at hcm
              rcases List.mem_cons.mp hcm with hcm | hcm
              · subst hcm
                have hne : (x :: xs).drop (s + 1) ≠ [] := by
                  intro hcon
                  rw [(chunksRec_eq_nil_iff s _).mpr hcon] at hrest
                  exact List.noConfusion hrest
                have hlong : s + 1 < (x :: xs).length := by
                  by_contra hle
                  exact hne (List.drop_eq_nil_of_le (by omega))
                simp only [List.length_take, List.length_cons] at hlong ⊢
                omega
              · refine ih ((x :: xs).drop (s + 1)) ?_ c (by rw [hrest]; exact hcm)
                simp only [List.length_drop, List.length_cons]
                simp only [List.length_cons] at hl
                omega

theorem chunksRec_sum_lengths (s : Nat) (l : List α) :
    ((chunksRec (s + 1) l).map List.length).sum = l.length := by
  have h := chunksRec_flatten s l
  calc ((chunksRec (s + 1) l).map List.length).sum
      = (chunksRec (s + 1) l).flatten.length := (List.length_flatten _).symm
    _ = l.length := by rw [h]

theorem pyChunks_chunk_size (l : List α) :
    pyChunks chunk_size l = chunksRec chunk_size l := by
  have h := pyChunks_eq_chunksRec 99 l
  norm_num at h
  exact h

theorem chunk_size_flatten (l : List α) :
    (chunksRec chunk_size l).flatten = l := by
  have h := chunksRec_flatten 99 l
  norm_num at h
  exact h

theorem chunk_size_sum_lengths (l : List α) :
    ((chunksRec chunk_size l).map List.length).sum = l.length := by
  have h := chunksRec_sum_lengths 99 l
  norm_num at h
  exact h

/-! ## Message-trace lemmas -/

theorem streamedPoints_append (a b : List Msg) :
    streamedPoints (a ++ b) = streamedPoints a ++ streamedPoints b := by
  induction a with
  | nil => simp [streamedPoints]
  | cons m rest ih => cases m <;> simp [streamedPoints, ih]

theorem streamedPoints_map_points (L : List (List RPoint)) :
    streamedPoints (L.map Msg.points) = L.flatten := by
  induction L with
  | nil => simp [streamedPoints]
  | cons c cs ih => simp [streamedPoints, ih]

theorem countErrorMsgs_append (a b : List Msg) :
    countErrorMsgs (a ++ b) = countErrorMsgs a + countErrorMsgs b := by
  simp [countErrorMsgs, List.filter_append]

theorem countErrorMsgs_map_points (L : List (List RPoint)) :
    countErrorMsgs (L.map Msg.points) = 0 := by
  induction L with
  | nil => simp [countErrorMsgs]
  | cons c cs ih => simp [countErrorMsgs, List.filter, ih]

theorem countPointsMsgs_append (a b : List Msg) :
    countPointsMsgs (a ++ b) = countPointsMsgs a + countPointsMsgs b := by
  simp [countPointsMsgs, List.filter_append]

theorem countPointsMsgs_map_points (L : List (List RPoint)) :
    countPointsMsgs (L.map Msg.points) = L.length := by
  induction L with
  | nil => simp [countPointsMsgs]
  | cons c cs ih => simpa [countPointsMsgs, List.filter] using ih

theorem pointsChunkSizes_append (a b : List Msg) :
    pointsChunkSizes (a ++ b) = pointsChunkSizes a ++ pointsChunkSizes b := by
  simp [pointsChunkSizes, List.filterMap_append]

theorem pointsChunkSizes_map_points (L : List (List RPoint)) :
    pointsChunkSizes (L.map Msg.points) = L.map List.length := by
  induction L with
  | nil => simp [pointsChunkSizes]
  | cons c cs ih => simpa [pointsChunkSizes, List.filterMap_cons] using ih

theorem ackStatuses_append (a b : List Msg) :
    ackStatuses (a ++ b) = ackStatuses a ++ ackStatuses b := by
  simp [ackStatuses, List.filterMap_append]

theorem ackStatuses_map_points (L : List (List RPoint)) :
    ackStatuses (L.map Msg.points) = [] := by
  induction L with
  | nil => simp [ackStatuses]
  | cons c cs ih => simp [ackStatuses, List.filterMap_cons]

/-! ## run_reconstruction and demo lemmas -/

theorem run_reconstruction_ok (env : RecEnv)
    (st : ReconstructionServiceState) (paths : List String)
    (pts : List RPoint) (h : process_images env st paths = .ok pts) :
    run_reconstruction env st paths =
      (pyChunks chunk_size pts).map Msg.points ++
        [Msg.reconstructionComplete pts.length] := by
  unfold run_reconstruction
  rw [h]

theorem run_reconstruction_err (env : RecEnv)
    (st : ReconstructionServiceState) (paths : List String)
    (e : RecError) (h : process_images env st paths = .error e) :
    run_reconstruction env st paths =
      [Msg.errorMsg ("Reconstruction failed: " ++ e.message)] := by
  unfold run_reconstruction
  rw [h]

theorem process_images_fallback (env : RecEnv)
    (st : ReconstructionServiceState) (paths : List String) (s' : String)
    (hav : st.fast3r_available = true) (hf : env.fast3rResult = .error s')
    (hn : 2 ≤ paths.length) :
    process_images env st paths = .ok env.heuristicPoints := by
  unfold process_images MIN_IMAGES_REQUIRED
  rw [if_neg (by omega), hav, hf]
  simp

theorem ackStatuses_run_reconstruction (env : RecEnv)
    (st : ReconstructionServiceState) (paths : List String) :
    ackStatuses (run_reconstruction env st paths) = [] := by
  unfold run_reconstruction
  cases hp : process_images env st paths with
  | ok pts =>
      rw [ackStatuses_append, ackStatuses_map_points]
      simp [ackStatuses, List.filterMap_cons]
  | error e => simp [ackStatuses, List.filterMap_cons]

theorem ackStatuses_send_demo_points (rand : Nat → RPoint) :
    ackStatuses (send_demo_points rand) = [] := by
  unfold send_demo_points
  rw [ackStatuses_append]
  have h1 : ackStatuses ((List.range 100).map fun i =>
      Msg.points ((List.range 10).map fun j => rand (i * 10 + j))) = [] := by
    have := ackStatuses_map_points
      ((List.range 100).map fun i =>
        (List.range 10).map fun j => rand (i * 10 + j))
    rw [List.map_map] at this
    exact this
  rw [h1]
  simp [ackStatuses, List.filterMap_cons]

/-! ## Claim theorems -/

/-- C6: the claim says the readiness probe returns 200 with `ready=true`
once initialization completed and 503 with `ready=false` while it is in
progress, and never fails any other way. On the code this is false in
both phases: the handler evaluates `service.ready`, but
`ReconstructionService.__init__` assigns no `ready` attribute, so the
access raises `AttributeError` for every service state and the probe
never produces either JSON response. -/
theorem c6_status_probe_attribute_error :
    ∀ st : ReconstructionServiceState,
      statusHandler st = .attrError "ready" ∧
      ∀ code ready msg, statusHandler st ≠ .jsonResp code ready msg := by
  intro st
  have h : statusHandler st = .attrError "ready" := rfl
  refine ⟨h, ?_⟩
  intro code ready msg hcon
  exact StatusResp.noConfusion (h.symm.trans hcon)

/-- Witness for `c6_status_probe_attribute_error` at a concrete service
state. -/
theorem c6_status_probe_attribute_error_witness :
    statusHandler stFast3r = .attrError "ready" :=
  (c6_status_probe_attribute_error stFast3r).1

/-- C8: exporting an empty point sequence always fails with the
empty-input error (`ValueError("No points provided for export")`) before
any file is produced — the success payload, which alone carries file
writes, is never built — and the `/export/ply` endpoint then returns a
500 failure with the error text instead of an artifact. The binary
exporter rejects the empty input identically. -/
theorem c8_empty_export_rejected :
    (∀ (floatRepr : Float → String) (filename : Option String),
        export_to_ply floatRepr [] filename = .error .emptyInput) ∧
    (∀ floatRepr : Float → String,
        export_ply floatRepr [] =
          .failure 500 "No points provided for export") ∧
    (∀ (packf32 : Float → List Nat) (filename : String),
        export_to_ply_binary packf32 [] filename = .error .emptyInput) := by
  exact ⟨fun _ _ => rfl, fun _ => rfl, fun _ _ => rfl⟩

/-- C3: the claim says calling `process_images` before initialization has
completed fails immediately with a typed `NotReady` error. On the code
this is false: `process_images` performs no readiness check whatsoever —
with the model not loaded it still returns points (heuristic fallback,
or a lazy model-load attempt), and its only typed failure is the
insufficient-input `ValueError`; no not-ready error exists in the
service. Stated here on two fresh (`model_loaded = false`) states: one
without the fast3r package and one where the Fast3R invocation fails. -/
theorem c3_no_readiness_gate :
    stNoFast3r.model_loaded = false ∧
    process_images env250 stNoFast3r ["img1.jpg", "img2.jpg"] =
      .ok env250.heuristicPoints ∧
    stFast3r.model_loaded = false ∧
    process_images envFast3rFails stFast3r ["img1.jpg", "img2.jpg"] =
      .ok envFast3rFails.heuristicPoints ∧
    (∀ e : RecError, ∃ provided minimum,
        e = .insufficientInput provided minimum) := by
  refine ⟨rfl, rfl, rfl, rfl, ?_⟩
  intro e
  cases e with
  | insufficientInput p m => exact ⟨p, m, rfl⟩

/-- C2: the claim says every `upload_complete` cycle clears the session's
`images` and releases its temporary storage so the connection can accept
a fresh batch. On the code this is false: after a full cycle (two images
saved, then `upload_complete`) the temp directory has been removed but
`session_images` still holds the two stale paths and `temp_dir` still
names the deleted directory — so the next `image_data` on the same
connection fails to save (error message, no `saved` acknowledgment). -/
theorem c2_session_state_not_reset :
    stateAfterCycle.session_images =
      ["/tmp/aetherscan_x1/a.jpg", "/tmp/aetherscan_x1/b.jpg"] ∧
    stateAfterCycle.temp_dir = some "/tmp/aetherscan_x1" ∧
    stateAfterCycle.temp_dir_exists = false ∧
    errorTexts
        (handle_image_data sessionEnvOk (some "c.jpg") stateAfterCycle).2 =
      ["Failed to save image: FileNotFoundError"] ∧
    ackStatuses
        (handle_image_data sessionEnvOk (some "c.jpg") stateAfterCycle).2 =
      [] := by
  refine ⟨by decide, by decide, by decide, by decide, by decide⟩

/-- C7: the ASCII exporter clamps each color channel into [0, 255] at
serialization time instead of rejecting out-of-range values: the clamp
`max(0, min(255, c))` is bounded, the identity on in-range values and
saturating outside; every serialized channel of every point is in range;
and the spec example `{x:1, y:2, z:3, r:300, g:-5, b:10}` serializes to
the body line `1 2 3 255 0 10` and exports successfully. -/
theorem c7_color_clamping :
    (∀ n : Int, 0 ≤ clampByte n ∧ clampByte n ≤ 255 ∧
      (0 ≤ n → n ≤ 255 → clampByte n = n) ∧
      (255 < n → clampByte n = 255) ∧ (n < 0 → clampByte n = 0)) ∧
    (∀ p : PointDict, 0 ≤ p.rClamped ∧ p.rClamped ≤ 255 ∧
      0 ≤ p.gClamped ∧ p.gClamped ≤ 255 ∧
      0 ≤ p.bClamped ∧ p.bClamped ≤ 255) ∧
    (∀ floatRepr : Float → String,
        vertexLine floatRepr examplePoint = "1 2 3 255 0 10") ∧
    (∀ floatRepr : Float → String,
        export_to_ply floatRepr [examplePoint] none =
          .ok (asciiHeader 1 ++ "1 2 3 255 0 10", [])) := by
  have hcl : ∀ n : Int, 0 ≤ clampByte n ∧ clampByte n ≤ 255 ∧
      (0 ≤ n → n ≤ 255 → clampByte n = n) ∧
      (255 < n → clampByte n = 255) ∧ (n < 0 → clampByte n = 0) := by
    intro n
    refine ⟨?_, ?_, ?_, ?_, ?_⟩ <;> simp [clampByte] <;> omega
  refine ⟨hcl, ?_, fun _ => rfl, fun _ => rfl⟩
  intro p
  exact ⟨(hcl (p.rField.getD 128)).1, (hcl (p.rField.getD 128)).2.1,
    (hcl (p.gField.getD 128)).1, (hcl (p.gField.getD 128)).2.1,
    (hcl (p.bField.getD 128)).1, (hcl (p.bField.getD 128)).2.1⟩

/-- Witness for `c7_color_clamping`: the clamp at 300 and -5 and the
example line. -/
theorem c7_color_clamping_witness :
    clampByte 300 = 255 ∧ clampByte (-5) = 0 ∧
    vertexLine constFloatStr examplePoint = "1 2 3 255 0 10" :=
  ⟨(c7_color_clamping.1 300).2.2.2.1 (by decide),
   (c7_color_clamping.1 (-5)).2.2.2.2 (by decide),
   c7_color_clamping.2.2.1 constFloatStr⟩

/-- C1 counterexample: with at least two images uploaded and a Fast3R
invocation that fails, the cycle does not emit one `error` and zero
`points` messages — it emits zero `error` messages and one `points`
message, streaming the substituted heuristic fallback points in place of
the failed computation's result. -/
theorem c1_counterexample :
    2 ≤ (["a.jpg", "b.jpg"] : List String).length ∧
    envFast3rFails.fast3rResult = .error "CUDA error: out of memory" ∧
    countErrorMsgs
        (run_reconstruction envFast3rFails stFast3r ["a.jpg", "b.jpg"]) = 0 ∧
    countPointsMsgs
        (run_reconstruction envFast3rFails stFast3r ["a.jpg", "b.jpg"]) = 1 ∧
    streamedPoints
        (run_reconstruction envFast3rFails stFast3r ["a.jpg", "b.jpg"]) =
      envFast3rFails.heuristicPoints := by
  refine ⟨by decide, rfl, by decide, by decide, rfl⟩

/-- C1 (amended): when `process_images` raises — which, with the service
as written, happens exactly for fewer than two images — the cycle emits
exactly one `error` message carrying the cause and zero `points`
messages; but when the Fast3R invocation itself fails with at least two
images, the service silently substitutes the heuristic fallback points
and the cycle streams them and completes with no `error` message at
all. -/
theorem c1_amended_error_handling :
    (∀ (env : RecEnv) (st : ReconstructionServiceState)
        (paths : List String) (e : RecError),
        process_images env st paths = .error e →
        run_reconstruction env st paths =
            [Msg.errorMsg ("Reconstruction failed: " ++ e.message)] ∧
        countErrorMsgs (run_reconstruction env st paths) = 1 ∧
        countPointsMsgs (run_reconstruction env st paths) = 0) ∧
    (∀ (env : RecEnv) (st : ReconstructionServiceState)
        (paths : List String) (s' : String),
        st.fast3r_available = true → env.fast3rResult = .error s' →
        2 ≤ paths.length →
        run_reconstruction env st paths =
            (pyChunks chunk_size env.heuristicPoints).map Msg.points ++
              [Msg.reconstructionComplete env.heuristicPoints.length] ∧
        countErrorMsgs (run_reconstruction env st paths) = 0) := by
  constructor
  · intro env st paths e h
    have hr := run_reconstruction_err env st paths e h
    refine ⟨hr, ?_, ?_⟩
    · rw [hr]; simp [countErrorMsgs, List.filter]
    · rw [hr]; simp [countPointsMsgs, List.filter]
  · intro env st paths s' hav hf hn
    have hp := process_images_fallback env st paths s' hav hf hn
    have hr := run_reconstruction_ok env st paths env.heuristicPoints hp
    refine ⟨hr, ?_⟩
    rw [hr, countErrorMsgs_append, countErrorMsgs_map_points]
    simp [countErrorMsgs, List.filter]

/-- Witness for `c1_amended_error_handling`: the error branch at one
image, the fallback branch at two images with a failing Fast3R. -/
theorem c1_amended_error_handling_witness :
    countErrorMsgs (run_reconstruction env250 stFast3r ["a.jpg"]) = 1 ∧
    countPointsMsgs (run_reconstruction env250 stFast3r ["a.jpg"]) = 0 ∧
    countErrorMsgs
        (run_reconstruction envFast3rFails stFast3r ["a.jpg", "b.jpg"]) = 0 :=
  ⟨(c1_amended_error_handling.1 env250 stFast3r ["a.jpg"]
      (.insufficientInput 1 2) rfl).2.1,
   (c1_amended_error_handling.1 env250 stFast3r ["a.jpg"]
      (.insufficientInput 1 2) rfl).2.2,
   (c1_amended_error_handling.2 envFast3rFails stFast3r ["a.jpg", "b.jpg"]
      "CUDA error: out of memory" rfl rfl (by decide)).2⟩

/-- C5 (amended): an `upload_complete` with zero uploaded images never
raises and always completes: for every random stream, the demo path
streams exactly 1000 synthetic points as 100 chunks of 10 — chunked and
paced like the real path, but with chunk size 10 rather than the real
path's 100 — and then emits a `reconstruction_complete` whose
`total_points` of 1000 equals the number of points streamed; the
completion message is structurally identical to a real one and carries
no synthetic marker. -/
theorem c5_amended_demo_path :
    ∀ rand : Nat → RPoint,
      (send_demo_points rand).map Msg.shape =
        List.replicate 100 ("points", 10) ++
          [("reconstruction_complete", 1000)] ∧
      (streamedPoints (send_demo_points rand)).length = 1000 ∧
      (pointsChunkSizes (send_demo_points rand)).sum = 1000 ∧
      (send_demo_points rand).getLast? =
        some (Msg.reconstructionComplete 1000) := by
  intro rand
  have hmm : ((List.range 100).map fun i =>
      Msg.points ((List.range 10).map fun j => rand (i * 10 + j))) =
      ((List.range 100).map fun i =>
        (List.range 10).map fun j => rand (i * 10 + j)).map Msg.points := by
    rw [List.map_map]
    rfl
  refine ⟨?_, ?_, ?_, ?_⟩
  · unfold send_demo_points
    rw [List.map_append, List.map_map]
    simp only [Function.comp_def, Msg.shape, List.length_map,
      List.length_range, List.map_cons, List.map_nil]
    rw [List.map_const', List.length_range]
  · unfold send_demo_points
    rw [streamedPoints_append]
    have h2 : streamedPoints [Msg.reconstructionComplete 1000] = [] := rfl
    rw [h2, List.append_nil, hmm, streamedPoints_map_points,
      List.length_flatten, List.map_map]
    simp only [Function.comp_def, List.length_map, List.length_range]
    rw [List.map_const', List.length_range, List.sum_replicate,
      smul_eq_mul]
  · unfold send_demo_points
    rw [pointsChunkSizes_append]
    have h2 : pointsChunkSizes [Msg.reconstructionComplete 1000] = [] := rfl
    rw [h2, List.append_nil, hmm, pointsChunkSizes_map_points, List.map_map]
    simp only [Function.comp_def, List.length_map, List.length_range]
    rw [List.map_const', List.length_range, List.sum_replicate,
      smul_eq_mul]
  · unfold send_demo_points
    exact List.getLast?_concat _

set_option maxRecDepth 40000 in
/-- C5 counterexample: the demo path does not use the same chunking
discipline as a real result — its chunk sizes are one hundred 10s,
whereas the real path's slicing of the same 1000 streamed points yields
ten 100s — and its completion message is exactly the completion message
a real 1000-point reconstruction produces, so nothing in it identifies
the result as synthetic. -/
theorem c5_counterexample :
    pointsChunkSizes (send_demo_points randConst) = List.replicate 100 10 ∧
    (pyChunks chunk_size
        (streamedPoints (send_demo_points randConst))).map List.length =
      List.replicate 10 100 ∧
    pointsChunkSizes (send_demo_points randConst) ≠
      (pyChunks chunk_size
          (streamedPoints (send_demo_points randConst))).map List.length ∧
    (send_demo_points randConst).getLast? =
      (run_reconstruction env1000 stFast3r ["a.jpg", "b.jpg"]).getLast? := by
  refine ⟨by decide, by decide, by decide, ?_⟩
  have h1 : (send_demo_points randConst).getLast? =
      some (Msg.reconstructionComplete 1000) := by
    unfold send_demo_points
    exact List.getLast?_concat _
  have h2 : run_reconstruction env1000 stFast3r ["a.jpg", "b.jpg"] =
      (pyChunks chunk_size pts1000).map Msg.points ++
        [Msg.reconstructionComplete pts1000.length] :=
    run_reconstruction_ok _ _ _ _ rfl
  rw [h1, h2, List.getLast?_concat]
  have h3 : pts1000.length = 1000 := by decide
  rw [h3]

set_option maxRecDepth 40000 in
/-- C4: on every successful reconstruction the cycle streams the points
in slices of 100, in original order (the concatenation of the `points`
chunks is the result itself), every chunk has at most 100 points and is
nonempty, every chunk but the last has exactly 100, the chunk sizes sum
to the `total_points` declared by the final `reconstruction_complete`,
and a 250-point result yields exactly the message shapes
`points(100), points(100), points(50), reconstruction_complete(250)`. -/
theorem c4_chunked_streaming :
    (∀ (env : RecEnv) (st : ReconstructionServiceState)
        (paths : List String) (pts : List RPoint),
        process_images env st paths = .ok pts →
        run_reconstruction env st paths =
            (pyChunks chunk_size pts).map Msg.points ++
              [Msg.reconstructionComplete pts.length] ∧
        streamedPoints (run_reconstruction env st paths) = pts ∧
        (pointsChunkSizes (run_reconstruction env st paths)).sum =
          pts.length ∧
        (∀ c ∈ pyChunks chunk_size pts, c.length ≤ 100 ∧ c ≠ []) ∧
        (∀ c ∈ (pyChunks chunk_size pts).dropLast, c.length = 100)) ∧
    (run_reconstruction env250 stFast3r ["a.jpg", "b.jpg"]).map Msg.shape =
      [("points", 100), ("points", 100), ("points", 50),
        ("reconstruction_complete", 250)] := by
  constructor
  · intro env st paths pts h
    have hr := run_reconstruction_ok env st paths pts h
    have hb := pyChunks_chunk_size pts
    have h100 : chunk_size = 99 + 1 := rfl
    refine ⟨hr, ?_, ?_, ?_, ?_⟩
    · rw [hr, streamedPoints_append]
      have h2 : streamedPoints [Msg.reconstructionComplete pts.length] = [] :=
        rfl
      rw [h2, List.append_nil, streamedPoints_map_points, hb,
        chunk_size_flatten]
    · rw [hr, pointsChunkSizes_append]
      have h2 : pointsChunkSizes [Msg.reconstructionComplete pts.length] = [] :=
        rfl
      rw [h2, List.append_nil, pointsChunkSizes_map_points, hb,
        chunk_size_sum_lengths]
    · intro c hc
      rw [hb, h100] at hc
      exact ⟨length_le_of_mem_chunksRec 99 pts c hc,
        ne_nil_of_mem_chunksRec 99 pts c hc⟩
    · intro c hc
      rw [hb, h100] at hc
      exact mem_dropLast_chunksRec 99 pts c hc
  · decide

/-- Witness for `c4_chunked_streaming` on the concrete 250-point run. -/
theorem c4_chunked_streaming_witness :
    streamedPoints (run_reconstruction env250 stFast3r ["a.jpg", "b.jpg"]) =
      pts250 ∧
    (pointsChunkSizes
        (run_reconstruction env250 stFast3r ["a.jpg", "b.jpg"])).sum = 250 :=
  ⟨(c4_chunked_streaming.1 env250 stFast3r ["a.jpg", "b.jpg"]
      pts250 rfl).2.1,
   (c4_chunked_streaming.1 env250 stFast3r ["a.jpg", "b.jpg"]
      pts250 rfl).2.2.1⟩

theorem foldl_append_packRecord (packf32 : Float → List Nat)
    (points : List PointDict) (acc : List Nat) :
    points.foldl (fun a p => a ++ packRecord packf32 p) acc =
      acc ++ (points.map (packRecord packf32)).flatten := by
  induction points generalizing acc with
  | nil => simp
  | cons p ps ih => simp [ih, List.append_assoc]

theorem packRecord_length (packf32 : Float → List Nat)
    (h4 : ∀ v, (packf32 v).length = 4) (p : PointDict) :
    (packRecord packf32 p).length = 15 := by
  simp [packRecord, List.length_append, h4]

/-- C9: for every nonempty point sequence of length N, binary export
succeeds and writes header plus body, where the body is the dense
concatenation of one 15-byte record per point — three 4-byte
little-endian float32 fields then three single color bytes, no padding
and no delimiter — so the body is exactly 15N bytes; and the header is
the fixed front text, the vertex count, and the fixed back text, so it
is identical across inputs except for the `element vertex N` line. The
float32 bit encoding itself belongs to Python's `struct` library and
enters as the packer parameter, constrained to 4-byte outputs. -/
theorem c9_binary_layout :
    ∀ packf32 : Float → List Nat, (∀ v, (packf32 v).length = 4) →
      ∀ (points : List PointDict) (filename : String), points ≠ [] →
        ∃ body,
          export_to_ply_binary packf32 points filename =
            .ok (binHeaderBytes points.length ++ body,
              [(filename, binHeaderBytes points.length ++ body)]) ∧
          body = (points.map (packRecord packf32)).flatten ∧
          body.length = 15 * points.length ∧
          (∀ p, (packRecord packf32 p).length = 15) ∧
          binHeader points.length =
            binHeaderFront ++ toString points.length ++ binHeaderBack := by
  intro packf32 h4 points filename hne
  have hlen15 : ∀ p, (packRecord packf32 p).length = 15 :=
    packRecord_length packf32 h4
  have hbody : ((points.map (packRecord packf32)).flatten).length =
      15 * points.length := by
    rw [List.length_flatten, List.map_map]
    have hmap : points.map (List.length ∘ packRecord packf32) =
        points.map (fun _ => 15) :=
      List.map_congr_left (fun p _ => hlen15 p)
    rw [hmap, List.map_const', List.sum_replicate, smul_eq_mul,
      Nat.mul_comm]
  refine ⟨(points.map (packRecord packf32)).flatten, ?_, rfl, hbody,
    hlen15, rfl⟩
  cases points with
  | nil => exact absurd rfl hne
  | cons p ps =>
      show (if (p :: ps).isEmpty then _ else _) = _
      rw [foldl_append_packRecord]
      simp only [List.isEmpty_cons, Bool.false_eq_true, if_false,
        List.nil_append]

/-- Witness for `c9_binary_layout` with a one-point input and a
four-zero-byte packer. -/
theorem c9_binary_layout_witness :
    ∃ body,
      export_to_ply_binary constPack [plainPoint] "out.ply" =
        .ok (binHeaderBytes 1 ++ body,
          [("out.ply", binHeaderBytes 1 ++ body)]) ∧
      body.length = 15 * 1 := by
  obtain ⟨body, h1, _, h3, _⟩ :=
    c9_binary_layout constPack (fun _ => rfl) [plainPoint] "out.ply"
      (by simp)
  exact ⟨body, h1, h3⟩

theorem ackStatuses_handle_image_data (env : SessionEnv)
    (f : Option String) (s : WsState) :
    ackStatuses (handle_image_data env f s).2 = ["saved"] ∨
    ackStatuses (handle_image_data env f s).2 = [] := by
  simp only [handle_image_data]
  split <;> split <;>
    first
      | (left; simp [ackStatuses, List.filterMap_cons]; done)
      | (right; simp [ackStatuses, List.filterMap_cons])

/-- C10: every `image_received` acknowledgment any handler emits carries
status `"saved"`; in particular the `"processing"` status listed in the
outbound schema is never produced by any code path of the session
loop. -/
theorem c10_ack_status_saved :
    ∀ (env : SessionEnv) (st : ReconstructionServiceState) (s : WsState)
      (m : InMsg) (stt : String),
      stt ∈ ackStatuses (handle_message env st s m).2 → stt = "saved" := by
  intro env st s m stt hm
  cases m with
  | ping => simp [handle_message, ackStatuses, List.filterMap_cons] at hm
  | unknown => simp [handle_message, ackStatuses] at hm
  | uploadComplete c =>
      have h2 : (handle_message env st s (.uploadComplete c)).2 =
          (if s.session_images.length == 0 then send_demo_points env.rand
           else run_reconstruction env.recEnv st s.session_images) := rfl
      rw [h2] at hm
      split at hm
      · rw [ackStatuses_send_demo_points] at hm
        simp at hm
      · rw [ackStatuses_run_reconstruction] at hm
        simp at hm
  | imageData f =>
      have h2 : (handle_message env st s (.imageData f)).2 =
          (handle_image_data env f s).2 := rfl
      rw [h2] at hm
      rcases ackStatuses_handle_image_data env f s with h | h
      · rw [h] at hm
        simpa using hm
      · rw [h] at hm
        simp at hm

/-- Witness for `c10_ack_status_saved` on a concrete successful save. -/
theorem c10_ack_status_saved_witness :
    ackStatuses (handle_message sessionEnvOk stNoFast3r initialWsState
        (.imageData (some "a.jpg"))).2 = ["saved"] ∧
    ("saved" : String) = "saved" :=
  ⟨by decide,
   c10_ack_status_saved sessionEnvOk stNoFast3r initialWsState
    (.imageData (some "a.jpg")) "saved" (by decide)⟩

end AetherScan
